import Mathlib

/-!
Verification of the background worker in `celery_worker.py`
(`process_video_assessment`): a shallow embedding of the job's control flow
and of its verdict-parsing string logic, together with theorems settling the
specification's claims about it.

Strings manipulated by the parser are modelled as `List Char`; Python floats
are modelled as exact rationals (the comparisons in the source, against
0.75 / 0.82 / 0.92, behave identically on the rational values of the
literals involved in the claims); the external collaborators (database rows,
HTTP download, media upload, the provider's file-state poll, the inference
call, and the standard-library `json.loads` / `float`) are supplied as an
explicit environment of outcomes, so that one run of the pure function
`process_video_assessment` corresponds to one execution of the task.
-/

/-- Modelled from the spec: the `models.AssessmentStatus` enum (module
`models` is not under src); spec section 3 enumerates the statuses
pending, processing, approved, rejected. -/
inductive AssessmentStatus
  | pending
  | processing
  | approved
  | rejected
deriving DecidableEq

/-- Modelled from the spec: the `.value` string of an `AssessmentStatus`
member, used by the worker's `str(assessment.status.value)`. -/
def statusValue : AssessmentStatus → String
  | AssessmentStatus.pending => "pending"
  | AssessmentStatus.processing => "processing"
  | AssessmentStatus.approved => "approved"
  | AssessmentStatus.rejected => "rejected"

/-- A Python value stored in the decoded JSON dict (only the shapes the
worker inspects: numbers and strings). -/
inductive PyVal
  | num (q : ℚ)
  | str (s : String)
deriving DecidableEq

/-- A decoded JSON object, as the worker consumes it (`ai_data.get`). -/
def PyDict := List (String × PyVal)

/-- Python `dict.get(key, default)`. -/
def dictGet (d : PyDict) (k : String) (dflt : PyVal) : PyVal :=
  match List.find? (fun kv => kv.fst == k) d with
  | some kv => kv.snd
  | none => dflt

/-- Modelled from the spec: the `models.SkillAssessment` row (module `models`
is not under src); fields are the ones the worker reads and writes,
spec section 3. -/
structure SkillAssessment where
  id : String
  video_url : String
  status : AssessmentStatus
  ai_score : ℚ
  human_reviewer_notes : PyVal
  editor_id : String
deriving DecidableEq

/-- Modelled from the spec: the `models.Editor` row (module `models` is not
under src); `badge_level` is the integer tier, spec section 3. -/
structure Editor where
  id : String
  badge_level : Int
deriving DecidableEq

/-- The backquote character (0x60), used by the markdown-fence handling. -/
def backquoteChar : Char := Char.ofNat 96

/-- The opening-brace character (0x7b), tested by `startswith` in line 104. -/
def lbraceChar : Char := Char.ofNat 123

/-- The closing-brace character (0x7d), used to build concrete JSON inputs. -/
def rbraceChar : Char := Char.ofNat 125

/-- Python `str.strip()`'s whitespace test, restricted to the ASCII
whitespace characters. -/
def pyIsSpace (c : Char) : Bool :=
  (c == ' ') || (c == '\t') || (c == '\n') || (c == '\r') ||
    (c == '\x0b') || (c == '\x0c')

/-- Python `str.strip()`: drop whitespace from both ends. -/
def pyStrip (l : List Char) : List Char :=
  (((l.dropWhile pyIsSpace).reverse).dropWhile pyIsSpace).reverse

/-- Python `s.startswith(p)` over character lists. -/
def startsWithL : List Char → List Char → Bool
  | [], _ => true
  | _ :: _, [] => false
  | p :: ps, c :: cs => p == c && startsWithL ps cs

/-- Python slice `s[7:-3]` (used in line 102 to drop the fence delimiters). -/
def pySlice7m3 (l : List Char) : List Char :=
  List.take (l.length - 10) (List.drop 7 l)

/-- Helper for `replaceJsonSub`: when `skip` is positive the character is
part of an occurrence already matched and is discarded. -/
def replaceJsonAux : Nat → List Char → List Char
  | _, [] => []
  | Nat.succ k, _ :: cs => replaceJsonAux k cs
  | 0, c :: cs =>
    if c == 'j' && List.isPrefixOf ['s', 'o', 'n'] cs then
      replaceJsonAux 3 cs
    else
      c :: replaceJsonAux 0 cs

/-- Python `s.replace("json", "")`: remove each occurrence of the substring
`json`, scanning left to right without overlap. -/
def replaceJsonSub (l : List Char) : List Char := replaceJsonAux 0 l

/-- The three backquotes of a markdown fence delimiter. -/
def bq3 : List Char := [backquoteChar, backquoteChar, backquoteChar]

/-- The seven characters of the opening fence marker tested in line 101. -/
def fenceTag : List Char := bq3 ++ ['j', 's', 'o', 'n']

/-- Wrapping a text in a markdown JSON code fence, as in the spec's
example: opening marker, newline, the text, newline, closing fence. -/
def wrapJsonFence (x : List Char) : List Char :=
  fenceTag ++ ('\n' :: x) ++ ('\n' :: bq3)

/-- Wrapping a text in a plain (untagged) triple-backquote fence. -/
def plainFenceWrap (x : List Char) : List Char :=
  bq3 ++ ('\n' :: x) ++ ('\n' :: bq3)

/-- Lines 99-102 of the worker: trim the raw response, and if it begins with
the seven-character opening fence marker, drop the marker and the trailing
three characters and trim again. -/
def fenceStripped (text : List Char) : List Char :=
  let t0 := pyStrip text
  if startsWithL fenceTag t0 then pyStrip (pySlice7m3 t0) else t0

/-- Lines 104-111 of the worker, applied to the fence-stripped text: check
the leading brace, remove backquotes and the literal substring `json`,
decode via the external `json.loads` (the `loads` parameter), and extract
score (via the external `float`, the `pf` parameter) and critique with their
defaults. Errors are the raised exceptions' messages. -/
def parseAfterFence (loads : List Char → Option PyDict) (pf : PyVal → Option ℚ)
    (t1 : List Char) : Except String (ℚ × PyVal) :=
  if startsWithL [lbraceChar] t1 then
    let cleaned := replaceJsonSub (List.filter (fun c => c != backquoteChar) t1)
    match loads cleaned with
    | none => Except.error "Expecting value: line 1 column 1 (char 0)"
    | some d =>
      match pf (dictGet d "score" (PyVal.num 0)) with
      | none => Except.error "could not convert value to float"
      | some q => Except.ok (q, dictGet d "critique" (PyVal.str "No critique provided."))
  else
    Except.error "AI response is not in the expected JSON format."

/-- The whole verdict-parsing block, lines 99-111 of the worker. -/
def parseVerdict (loads : List Char → Option PyDict) (pf : PyVal → Option ℚ)
    (text : List Char) : Except String (ℚ × PyVal) :=
  parseAfterFence loads pf (fenceStripped text)

/-- Lines 120-122 of the worker: the badge tier assigned at approval. The
source literals 0.92 and 0.82 are written as the exact rationals
`mkRat 23 25` and `mkRat 41 50`. -/
def badgeFor (score : ℚ) : Int :=
  if score > mkRat 23 25 then 3 else if score > mkRat 41 50 then 2 else 1

/-- The poll loop of lines 64-68: starting from the uploaded file's state,
keep re-fetching (consuming the environment's list of successive states)
while the state is `PROCESSING`; `none` models the loop never observing a
terminal state (the unbounded-wait case). -/
def waitForActive : String → List String → Option String
  | st, [] => if st = "PROCESSING" then none else some st
  | st, s :: rest => if st = "PROCESSING" then waitForActive s rest else some st

/-- The outcomes of the external collaborators consumed by one execution:
the two database lookups, the HTTP download, the media upload (returning the
file's initial state name), the successive poll states, the inference call
(returning the response text), and the `json.loads` / `float` behaviors. -/
structure Env where
  lookupAssessment : Option SkillAssessment
  downloadResult : Except String Unit
  uploadResult : Except String String
  pollStates : List String
  inferenceResult : Except String (List Char)
  loads : List Char → Option PyDict
  pyFloat : PyVal → Option ℚ
  lookupEditor : Option Editor

/-- Observable side effects of one execution: temporary-file lifecycle,
which assessment fields were assigned, whether a badge was assigned, the
number of commits, and the exception caught by the top-level handler. -/
structure Effects where
  tempCreated : Bool
  tempDeleted : Bool
  wroteAiScore : Bool
  wroteNotes : Bool
  wroteBadge : Bool
  commits : Nat
  caught : Option String
deriving DecidableEq

/-- The persistent rows touched by the job, as left at job end. -/
structure DBState where
  assessment : Option SkillAssessment
  editor : Option Editor
deriving DecidableEq

/-- The dict built in line 142 and returned to the dispatcher. -/
structure JobReturn where
  assessment_id : String
  status : String
  score : ℚ
deriving DecidableEq

/-- Everything observable about one completed execution: final database
state, side effects, and the task's Python return value (`none` models
returning Python `None`). -/
structure JobResult where
  db : DBState
  eff : Effects
  ret : Option JobReturn
deriving DecidableEq

/-- The effects of the record-absent early exit: nothing was created,
deleted, written, or committed, and nothing was caught. -/
def zeroEff : Effects :=
  { tempCreated := false, tempDeleted := false, wroteAiScore := false,
    wroteNotes := false, wroteBadge := false, commits := 0, caught := none }

/-- The result of the record-absent early exit (line 30-32): the bare
`return` inside the `try` makes the task return Python `None`. -/
def notFoundResult (le : Option Editor) : JobResult :=
  { db := { assessment := none, editor := le }, eff := zeroEff, ret := none }

/-- The note text written by the top-level exception handler (line 133). -/
def errNote (e : String) : PyVal :=
  PyVal.str ("An error occurred during AI processing: " ++ e)

/-- The result of the top-level exception handler (lines 129-134) followed
by the `finally`/return: status rejected, notes overwritten with the error
description, `ai_score` not assigned, two commits (the `processing` commit
and the handler's), and the returned dict carrying the local `ai_score`
default 0.0. -/
def failResult (assessment_id : String) (a1 : SkillAssessment) (le : Option Editor)
    (e : String) (created deleted : Bool) : JobResult :=
  { db := { assessment := some { a1 with
              status := AssessmentStatus.rejected,
              human_reviewer_notes := errNote e },
            editor := le },
    eff := { tempCreated := created, tempDeleted := deleted,
             wroteAiScore := false, wroteNotes := true, wroteBadge := false,
             commits := 2, caught := some e },
    ret := some { assessment_id := assessment_id,
                  status := statusValue AssessmentStatus.rejected, score := 0 } }

/-- The effects of a run that reaches the state updater (lines 113-126):
both verdict fields assigned, temp file created and deleted, two commits,
nothing caught; `badge` records whether line 120-122 assigned a badge. -/
def succEff (badge : Bool) : Effects :=
  { tempCreated := true, tempDeleted := true, wroteAiScore := true,
    wroteNotes := true, wroteBadge := badge, commits := 2, caught := none }

/-- The task `process_video_assessment` of `celery_worker.py`, as a function
of the environment of external outcomes and the assessment id. `none`
models the execution never completing (the unbounded poll loop). The source
literal 0.75 of line 116 is written as the exact rational `mkRat 3 4`. -/
def process_video_assessment (env : Env) (assessment_id : String) : Option JobResult :=
  match env.lookupAssessment with
  | none => some (notFoundResult env.lookupEditor)
  | some a0 =>
    let a1 := { a0 with status := AssessmentStatus.processing }
    match env.downloadResult with
    | Except.error e => some (failResult assessment_id a1 env.lookupEditor e true false)
    | Except.ok _ =>
      match env.uploadResult with
      | Except.error e => some (failResult assessment_id a1 env.lookupEditor e true false)
      | Except.ok st0 =>
        match waitForActive st0 env.pollStates with
        | none => none
        | some finalState =>
          if finalState ≠ "ACTIVE" then
            some (failResult assessment_id a1 env.lookupEditor
              ("File processing failed. Final state: " ++ finalState) true true)
          else
            match env.inferenceResult with
            | Except.error e => some (failResult assessment_id a1 env.lookupEditor e true true)
            | Except.ok text =>
              match parseVerdict env.loads env.pyFloat text with
              | Except.error e => some (failResult assessment_id a1 env.lookupEditor e true true)
              | Except.ok (score, critique) =>
                let a2 := { a1 with ai_score := score, human_reviewer_notes := critique }
                if score ≥ mkRat 3 4 then
                  let a3 := { a2 with status := AssessmentStatus.approved }
                  match env.lookupEditor with
                  | some ed =>
                    some { db := { assessment := some a3,
                                   editor := some { ed with badge_level := badgeFor score } },
                           eff := succEff true,
                           ret := some { assessment_id := assessment_id,
                                         status := statusValue a3.status, score := score } }
                  | none =>
                    some { db := { assessment := some a3, editor := none },
                           eff := succEff false,
                           ret := some { assessment_id := assessment_id,
                                         status := statusValue a3.status, score := score } }
                else
                  let a3 := { a2 with status := AssessmentStatus.rejected }
                  some { db := { assessment := some a3, editor := env.lookupEditor },
                         eff := succEff false,
                         ret := some { assessment_id := assessment_id,
                                       status := statusValue a3.status, score := score } }

/-- The final status of the assessment row inside a result. -/
def dbStatus (r : JobResult) : Option AssessmentStatus :=
  Option.map SkillAssessment.status r.db.assessment

/-- The final reviewer notes of the assessment row inside a result. -/
def dbNotes (r : JobResult) : Option PyVal :=
  Option.map SkillAssessment.human_reviewer_notes r.db.assessment

/-- The final editor row inside a result. -/
def dbEditor (r : JobResult) : Option Editor := r.db.editor

/-- The final assessment status of a possibly-diverging run. -/
def jobStatus (o : Option JobResult) : Option AssessmentStatus :=
  Option.bind o dbStatus

/-- The final editor row of a possibly-diverging run. -/
def jobEditorState (o : Option JobResult) : Option Editor :=
  Option.bind o dbEditor

/-- Whether the temporary file was deleted, for a completed run. -/
def effTempDeleted (r : JobResult) : Bool := r.eff.tempDeleted

/-- The temp-file-deleted flag of a possibly-diverging run. -/
def jobTempDeleted (o : Option JobResult) : Option Bool :=
  Option.map effTempDeleted o

/-- A `float()` behavior for concrete runs: numbers convert to themselves,
strings raise. -/
def samplePyFloat : PyVal → Option ℚ :=
  fun v => match v with | PyVal.num q => some q | PyVal.str _ => none

/-- A concrete pending assessment row. -/
def aSample : SkillAssessment :=
  { id := "a1", video_url := "http://example.com/v.mp4",
    status := AssessmentStatus.pending, ai_score := 0,
    human_reviewer_notes := PyVal.str "", editor_id := "e1" }

/-- A concrete editor row with badge level 0. -/
def edSample : Editor := { id := "e1", badge_level := 0 }

/-- The two characters of the JSON text of an empty object. -/
def textEmptyObj : List Char := [lbraceChar, rbraceChar]

/-- A `json.loads` behavior that decodes exactly the empty object. -/
def sampleLoadsEmpty : List Char → Option PyDict :=
  fun l => if l = [lbraceChar, rbraceChar] then some ([] : PyDict) else none

/-- A `json.loads` behavior decoding a dict whose score is 0.85. -/
def loads085 : List Char → Option PyDict :=
  fun _ => some [("score", PyVal.num (mkRat 17 20))]

/-- A `json.loads` behavior decoding a dict whose score is 0.75. -/
def loads075 : List Char → Option PyDict :=
  fun _ => some [("score", PyVal.num (mkRat 3 4))]

/-- A refusal response that is not JSON. -/
def textRefusal : List Char := "I cannot analyze this".toList

/-- An environment whose assessment lookup finds no row. -/
def envAbsent : Env :=
  { lookupAssessment := none, downloadResult := Except.error "unused",
    uploadResult := Except.error "unused", pollStates := [],
    inferenceResult := Except.error "unused", loads := fun _ => none,
    pyFloat := samplePyFloat, lookupEditor := none }

/-- An environment in which the video download raises. -/
def envDownloadErr : Env :=
  { lookupAssessment := some aSample, downloadResult := Except.error "boom",
    uploadResult := Except.error "unused", pollStates := [],
    inferenceResult := Except.error "unused", loads := fun _ => none,
    pyFloat := samplePyFloat, lookupEditor := some edSample }

/-- An environment in which the media upload raises. -/
def envUploadErr : Env :=
  { lookupAssessment := some aSample, downloadResult := Except.ok (),
    uploadResult := Except.error "upload failed", pollStates := [],
    inferenceResult := Except.error "unused", loads := fun _ => none,
    pyFloat := samplePyFloat, lookupEditor := some edSample }

/-- An environment in which the upload succeeds but the inference call
raises afterwards. -/
def envInferErr : Env :=
  { lookupAssessment := some aSample, downloadResult := Except.ok (),
    uploadResult := Except.ok "ACTIVE", pollStates := [],
    inferenceResult := Except.error "inference unavailable", loads := fun _ => none,
    pyFloat := samplePyFloat, lookupEditor := some edSample }

/-- A fully successful environment whose parsed score is 0.85. -/
def envScore085 : Env :=
  { lookupAssessment := some aSample, downloadResult := Except.ok (),
    uploadResult := Except.ok "PROCESSING", pollStates := ["ACTIVE"],
    inferenceResult := Except.ok [lbraceChar, rbraceChar], loads := loads085,
    pyFloat := samplePyFloat, lookupEditor := some edSample }

/-- A fully successful environment whose parsed score is exactly 0.75. -/
def envScore075 : Env :=
  { lookupAssessment := some aSample, downloadResult := Except.ok (),
    uploadResult := Except.ok "ACTIVE", pollStates := [],
    inferenceResult := Except.ok [lbraceChar, rbraceChar], loads := loads075,
    pyFloat := samplePyFloat, lookupEditor := some edSample }

/-- The 0.75-scoring environment, with no matching editor row. -/
def envScore075NoEd : Env :=
  { lookupAssessment := some aSample, downloadResult := Except.ok (),
    uploadResult := Except.ok "ACTIVE", pollStates := [],
    inferenceResult := Except.ok [lbraceChar, rbraceChar], loads := loads075,
    pyFloat := samplePyFloat, lookupEditor := none }

/-- The result of the download-failure execution `envDownloadErr`. -/
def rDownloadErr : JobResult :=
  failResult "a1" { aSample with status := AssessmentStatus.processing }
    (some edSample) "boom" true false

/-- The result of the fully successful execution `envScore085`: approved at
score 0.85, editor badge raised to 2, both verdict fields written. -/
def rScore085 : JobResult :=
  { db := { assessment := some { aSample with
              status := AssessmentStatus.approved,
              ai_score := mkRat 17 20,
              human_reviewer_notes := PyVal.str "No critique provided." },
            editor := some { id := "e1", badge_level := 2 } },
    eff := succEff true,
    ret := some { assessment_id := "a1", status := "approved", score := mkRat 17 20 } }

lemma dropWhileFalseHead (p : Char → Bool) (c : Char) (l : List Char) (h : p c = false) :
    List.dropWhile p (c :: l) = c :: l := by
  simp [List.dropWhile, h]

lemma dropWhile_append_eq (p : Char → Bool) (x y : List Char) :
    List.dropWhile p (x ++ y) =
      if List.dropWhile p x = [] then List.dropWhile p y
      else List.dropWhile p x ++ y := by
  induction x with
  | nil => simp
  | cons c cs ih =>
    by_cases hpc : p c
    · simpa [List.dropWhile, hpc] using ih
    · simp [List.dropWhile, hpc]

lemma pyStrip_sandwich (c d : Char) (m : List Char)
    (hc : pyIsSpace c = false) (hd : pyIsSpace d = false) :
    pyStrip (c :: m ++ [d]) = c :: m ++ [d] := by
  rw [List.cons_append]
  unfold pyStrip
  rw [dropWhileFalseHead _ _ _ hc]
  have h1 : (c :: (m ++ [d])).reverse = d :: (m.reverse ++ [c]) := by simp
  rw [h1, dropWhileFalseHead _ _ _ hd, ← h1, List.reverse_reverse]

lemma pyStrip_newline_sandwich (x : List Char) :
    pyStrip ('\n' :: x ++ ['\n']) = pyStrip x := by
  rw [List.cons_append]
  unfold pyStrip
  have hn : pyIsSpace '\n' = true := rfl
  have h0 : List.dropWhile pyIsSpace ('\n' :: (x ++ ['\n']))
      = List.dropWhile pyIsSpace (x ++ ['\n']) := by
    simp [List.dropWhile, hn]
  rw [h0, dropWhile_append_eq]
  by_cases h : List.dropWhile pyIsSpace x = []
  · simp [h, List.dropWhile, hn]
  · rw [if_neg h]
    simp [List.reverse_append, List.dropWhile, hn]

lemma startsWithL_append_self (p r : List Char) : startsWithL p (p ++ r) = true := by
  induction p with
  | nil => rfl
  | cons c cs ih => simp [startsWithL, ih]

lemma take_len_append (x y : List Char) (n : Nat) :
    List.take (x.length + n) (x ++ y) = x ++ List.take n y := by
  induction x with
  | nil => simp
  | cons c cs ih =>
    have h : (c :: cs).length + n = (cs.length + n) + 1 := by simp; omega
    rw [h]
    simp only [List.cons_append, List.take_succ_cons, ih]

lemma slice_wrapJsonFence (x : List Char) :
    pySlice7m3 (wrapJsonFence x) = '\n' :: x ++ ['\n'] := by
  unfold pySlice7m3 wrapJsonFence fenceTag bq3
  have hlen : ((([backquoteChar, backquoteChar, backquoteChar] ++ ['j', 's', 'o', 'n'])
      ++ ('\n' :: x) ++ ('\n' :: [backquoteChar, backquoteChar, backquoteChar])).length - 10)
      = ('\n' :: x).length + 1 := by
    simp
  rw [hlen]
  have hdrop : List.drop 7 ((([backquoteChar, backquoteChar, backquoteChar] ++ ['j', 's', 'o', 'n'])
      ++ ('\n' :: x) ++ ('\n' :: [backquoteChar, backquoteChar, backquoteChar])))
      = ('\n' :: x) ++ ('\n' :: [backquoteChar, backquoteChar, backquoteChar]) := by
    simp [List.drop]
  rw [hdrop]
  have := take_len_append ('\n' :: x) ('\n' :: [backquoteChar, backquoteChar, backquoteChar]) 1
  simpa using this

lemma wrapJsonFence_shape (x : List Char) :
    wrapJsonFence x = backquoteChar ::
      ([backquoteChar, backquoteChar, 'j', 's', 'o', 'n', '\n'] ++ x ++ ['\n', backquoteChar, backquoteChar])
      ++ [backquoteChar] := by
  simp [wrapJsonFence, fenceTag, bq3]

lemma strip_wrapJsonFence (x : List Char) :
    pyStrip (wrapJsonFence x) = wrapJsonFence x := by
  rw [wrapJsonFence_shape]
  exact pyStrip_sandwich _ _ _ rfl rfl

lemma fence_check_wrapJsonFence (x : List Char) :
    startsWithL fenceTag (wrapJsonFence x) = true := by
  unfold wrapJsonFence
  rw [List.append_assoc]
  exact startsWithL_append_self fenceTag _

lemma fenceStripped_wrapJsonFence (x : List Char) :
    fenceStripped (wrapJsonFence x) = pyStrip x := by
  unfold fenceStripped
  simp only [strip_wrapJsonFence, fence_check_wrapJsonFence, if_true,
    slice_wrapJsonFence, pyStrip_newline_sandwich]

lemma fenceStripped_of_not_fence (x : List Char)
    (h : startsWithL fenceTag (pyStrip x) = false) :
    fenceStripped x = pyStrip x := by
  unfold fenceStripped
  simp only [h, Bool.false_eq_true, if_false]

lemma plainFenceWrap_shape (x : List Char) :
    plainFenceWrap x = backquoteChar ::
      ([backquoteChar, backquoteChar, '\n'] ++ x ++ ['\n', backquoteChar, backquoteChar])
      ++ [backquoteChar] := by
  simp [plainFenceWrap, bq3]

lemma strip_plainFenceWrap (x : List Char) :
    pyStrip (plainFenceWrap x) = plainFenceWrap x := by
  rw [plainFenceWrap_shape]
  exact pyStrip_sandwich _ _ _ rfl rfl

lemma run_shape (env : Env) (aid : String) (r : JobResult)
    (hr : process_video_assessment env aid = some r) :
    (env.lookupAssessment = none ∧ r = notFoundResult env.lookupEditor) ∨
    (∃ a e c d, env.lookupAssessment = some a ∧
       r = failResult aid { a with status := AssessmentStatus.processing }
             env.lookupEditor e c d) ∨
    (∃ b a, env.lookupAssessment = some a ∧ r.eff = succEff b) := by
  obtain ⟨la, dl, up, polls, infr, loads, pf, le⟩ := env
  unfold process_video_assessment at hr
  dsimp only at hr
  repeat' split at hr
  all_goals simp only [Option.some.injEq, reduceCtorEq] at hr
  all_goals (try (left; exact ⟨rfl, hr.symm⟩))
  all_goals (try (right; left; exact ⟨_, _, true, false, rfl, hr.symm⟩))
  all_goals (try (right; left; exact ⟨_, _, true, true, rfl, hr.symm⟩))
  all_goals (right; right; exact ⟨_, _, rfl, congrArg JobResult.eff hr.symm⟩)

/-- Claim C1 (amended): in every completed execution, on the success path
(record found and nothing caught) `ai_score` and `human_reviewer_notes` are
both written; whenever `ai_score` was written `human_reviewer_notes` was
written as well; but on the exception path (something was caught)
`human_reviewer_notes` is written while `ai_score` is not; and when the
record was absent neither is written. -/
theorem c1_writes_amended (env : Env) (aid : String) (r : JobResult)
    (hr : process_video_assessment env aid = some r) :
    (env.lookupAssessment.isSome = true → r.eff.caught = none →
      r.eff.wroteAiScore = true ∧ r.eff.wroteNotes = true) ∧
    (r.eff.wroteAiScore = true → r.eff.wroteNotes = true) ∧
    (r.eff.caught.isSome = true → r.eff.wroteNotes = true ∧ r.eff.wroteAiScore = false) ∧
    (env.lookupAssessment = none → r.eff.wroteNotes = false ∧ r.eff.wroteAiScore = false) := by
  rcases run_shape env aid r hr with ⟨hn, hre⟩ | ⟨a, e, c, d, hla, hre⟩ | ⟨b, a, hla, he⟩
  · subst hre
    refine ⟨fun h _ => ?_, by simp [notFoundResult, zeroEff],
      by simp [notFoundResult, zeroEff], fun _ => ⟨rfl, rfl⟩⟩
    rw [hn] at h
    simp at h
  · subst hre
    refine ⟨fun _ hcn => ?_, by simp [failResult], fun _ => ⟨rfl, rfl⟩, fun h => ?_⟩
    · simp [failResult] at hcn
    · rw [hla] at h; simp at h
  · refine ⟨fun _ _ => ⟨?_, ?_⟩, fun _ => ?_, fun h => ?_, fun h => ?_⟩
    · rw [he]; rfl
    · rw [he]; rfl
    · rw [he]; rfl
    · rw [he] at h; simp [succEff] at h
    · rw [hla] at h; simp at h

/-- Claim C1 counterexample: in the execution where the download raises, the
handler writes `human_reviewer_notes` while `ai_score` is not written, so
the two fields are not always written together. -/
theorem c1_writes_counterexample :
    process_video_assessment envDownloadErr "a1" =
      some (failResult "a1" { aSample with status := AssessmentStatus.processing }
        (some edSample) "boom" true false) ∧
    (failResult "a1" { aSample with status := AssessmentStatus.processing }
        (some edSample) "boom" true false).eff.wroteNotes = true ∧
    (failResult "a1" { aSample with status := AssessmentStatus.processing }
        (some edSample) "boom" true false).eff.wroteAiScore = false :=
  ⟨rfl, rfl, rfl⟩

/-- Claim C1 witness: the amended statement instantiated both at the
concrete download-failure execution (notes written without score) and at
the concrete successful execution (both fields written together). -/
theorem c1_writes_witness :
    process_video_assessment envDownloadErr "a1" = some rDownloadErr ∧
    (envDownloadErr.lookupAssessment.isSome = true → rDownloadErr.eff.caught = none →
      rDownloadErr.eff.wroteAiScore = true ∧ rDownloadErr.eff.wroteNotes = true) ∧
    (rDownloadErr.eff.wroteAiScore = true → rDownloadErr.eff.wroteNotes = true) ∧
    (rDownloadErr.eff.caught.isSome = true →
      rDownloadErr.eff.wroteNotes = true ∧ rDownloadErr.eff.wroteAiScore = false) ∧
    (envDownloadErr.lookupAssessment = none →
      rDownloadErr.eff.wroteNotes = false ∧ rDownloadErr.eff.wroteAiScore = false) ∧
    process_video_assessment envScore085 "a1" = some rScore085 ∧
    (envScore085.lookupAssessment.isSome = true → rScore085.eff.caught = none →
      rScore085.eff.wroteAiScore = true ∧ rScore085.eff.wroteNotes = true) :=
  ⟨rfl,
   (c1_writes_amended envDownloadErr "a1" rDownloadErr rfl).1,
   (c1_writes_amended envDownloadErr "a1" rDownloadErr rfl).2.1,
   (c1_writes_amended envDownloadErr "a1" rDownloadErr rfl).2.2.1,
   (c1_writes_amended envDownloadErr "a1" rDownloadErr rfl).2.2.2,
   rfl,
   (c1_writes_amended envScore085 "a1" rScore085 rfl).1⟩

/-- Claim C8: in every completed execution in which the top-level handler
caught an exception, the committed assessment status is `rejected`, the
reviewer notes carry the error description, and the status is not left as
`processing`. -/
theorem c8_failure_rejected (env : Env) (aid : String) (r : JobResult) (e : String)
    (hr : process_video_assessment env aid = some r)
    (hc : r.eff.caught = some e) :
    dbStatus r = some AssessmentStatus.rejected ∧
    dbNotes r = some (errNote e) ∧
    dbStatus r ≠ some AssessmentStatus.processing := by
  rcases run_shape env aid r hr with ⟨hn, hre⟩ | ⟨a, e', c, d, hla, hre⟩ | ⟨b, a, hla, he⟩
  · subst hre; simp [notFoundResult, zeroEff] at hc
  · subst hre
    have he' : e' = e := by simpa [failResult] using hc
    subst he'
    exact ⟨rfl, rfl, by simp [dbStatus, failResult]⟩
  · rw [he] at hc; simp [succEff] at hc

/-- Claim C8 witness: the statement instantiated at the concrete
download-failure execution (status rejected, notes carry the error). -/
theorem c8_failure_rejected_witness :
    process_video_assessment envDownloadErr "a1" =
      some (failResult "a1" { aSample with status := AssessmentStatus.processing }
        (some edSample) "boom" true false) ∧
    (failResult "a1" { aSample with status := AssessmentStatus.processing }
        (some edSample) "boom" true false).eff.caught = some "boom" ∧
    (dbStatus (failResult "a1" { aSample with status := AssessmentStatus.processing }
        (some edSample) "boom" true false) = some AssessmentStatus.rejected ∧
     dbNotes (failResult "a1" { aSample with status := AssessmentStatus.processing }
        (some edSample) "boom" true false) = some (errNote "boom") ∧
     dbStatus (failResult "a1" { aSample with status := AssessmentStatus.processing }
        (some edSample) "boom" true false) ≠ some AssessmentStatus.processing) :=
  ⟨rfl, rfl, c8_failure_rejected envDownloadErr "a1"
    (failResult "a1" { aSample with status := AssessmentStatus.processing }
      (some edSample) "boom" true false) "boom" rfl rfl⟩

/-- Claim C2 (code evaluation at the failing input): when the lookup finds
no row the execution performs zero writes and zero commits and leaves the
database untouched, but the bare `return` of line 32 makes the task return
Python `None` (`ret = none`) instead of the `not_found` result record that
line 142 would build. -/
theorem c2_not_found_returns_none :
    process_video_assessment envAbsent "missing" = some (notFoundResult none) ∧
    (notFoundResult none).eff = zeroEff ∧
    (notFoundResult none).eff.commits = 0 ∧
    (notFoundResult none).db = { assessment := none, editor := none } ∧
    (notFoundResult none).ret = none :=
  ⟨rfl, rfl, rfl, rfl, rfl⟩

/-- Claim C3 (amended): once the upload has succeeded, the temporary file is
deleted, whatever the outcome of every later stage (failed poll state,
inference error, parse error, approval or rejection). -/
theorem c3_temp_delete_amended (aid : String) (a : SkillAssessment) (st0 fs : String)
    (polls : List String) (infr : Except String (List Char))
    (loads : List Char → Option PyDict) (pf : PyVal → Option ℚ) (le : Option Editor)
    (hw : waitForActive st0 polls = some fs) :
    jobTempDeleted (process_video_assessment
      { lookupAssessment := some a, downloadResult := Except.ok (),
        uploadResult := Except.ok st0, pollStates := polls,
        inferenceResult := infr, loads := loads, pyFloat := pf,
        lookupEditor := le } aid)
      = some true := by
  unfold process_video_assessment
  dsimp only
  rw [hw]
  repeat' split
  all_goals (try rfl)
  all_goals simp_all

/-- Claim C3 counterexample: when the upload itself raises, the temporary
file was created but is never deleted (the `os.unlink` of line 59 is only
reached after a successful upload), contradicting the deletion-on-failure
part of the claim. -/
theorem c3_temp_delete_counterexample :
    process_video_assessment envUploadErr "a1" =
      some (failResult "a1" { aSample with status := AssessmentStatus.processing }
        (some edSample) "upload failed" true false) ∧
    (failResult "a1" { aSample with status := AssessmentStatus.processing }
        (some edSample) "upload failed" true false).eff.tempCreated = true ∧
    (failResult "a1" { aSample with status := AssessmentStatus.processing }
        (some edSample) "upload failed" true false).eff.tempDeleted = false :=
  ⟨rfl, rfl, rfl⟩

/-- Claim C3 witness: the amended statement instantiated at the execution
where the upload succeeds and the later inference stage raises; the file is
deleted nonetheless. -/
theorem c3_temp_delete_witness :
    waitForActive "ACTIVE" [] = some "ACTIVE" ∧
    jobTempDeleted (process_video_assessment envInferErr "a1") = some true :=
  ⟨rfl, c3_temp_delete_amended "a1" aSample "ACTIVE" "ACTIVE" []
    (Except.error "inference unavailable") (fun _ => none) samplePyFloat
    (some edSample) rfl⟩

/-- Claim C4: for every execution that reaches a successfully parsed
verdict, the final committed status is `approved` exactly when the parsed
score is at least 0.75 (`mkRat 3 4`), and `rejected` for any smaller
score. -/
theorem c4_approval_threshold (aid : String) (a : SkillAssessment) (st0 : String)
    (polls : List String) (text : List Char) (loads : List Char → Option PyDict)
    (pf : PyVal → Option ℚ) (le : Option Editor) (score : ℚ) (critique : PyVal)
    (hw : waitForActive st0 polls = some "ACTIVE")
    (hp : parseVerdict loads pf text = Except.ok (score, critique)) :
    jobStatus (process_video_assessment
      { lookupAssessment := some a, downloadResult := Except.ok (),
        uploadResult := Except.ok st0, pollStates := polls,
        inferenceResult := Except.ok text, loads := loads, pyFloat := pf,
        lookupEditor := le } aid)
      = some (if score ≥ mkRat 3 4 then AssessmentStatus.approved
              else AssessmentStatus.rejected) := by
  unfold process_video_assessment
  dsimp only
  rw [hw, hp]
  dsimp only
  rw [if_neg (by simp)]
  by_cases hs : score ≥ mkRat 3 4
  · rw [if_pos hs, if_pos hs]
    cases le <;> rfl
  · rw [if_neg hs, if_neg hs]
    rfl

/-- Claim C4 witness: at the boundary score exactly 0.75 the final status
is `approved`. -/
theorem c4_approval_threshold_witness :
    waitForActive "ACTIVE" [] = some "ACTIVE" ∧
    parseVerdict loads075 samplePyFloat [lbraceChar, rbraceChar] =
      Except.ok (mkRat 3 4, PyVal.str "No critique provided.") ∧
    jobStatus (process_video_assessment envScore075 "a1") = some AssessmentStatus.approved :=
  ⟨rfl, rfl,
    (c4_approval_threshold "a1" aSample "ACTIVE" [] [lbraceChar, rbraceChar]
      loads075 samplePyFloat (some edSample) (mkRat 3 4)
      (PyVal.str "No critique provided.") rfl rfl).trans rfl⟩

/-- Claim C5: for every execution with a successfully parsed verdict and a
found editor row, approval (score at least 0.75) re-assigns `badge_level`
as a pure function of the score — 3 above 0.92, 2 above 0.82, else 1 —
while a score-based rejection leaves the editor row untouched. -/
theorem c5_badge_bands (aid : String) (a : SkillAssessment) (st0 : String)
    (polls : List String) (text : List Char) (loads : List Char → Option PyDict)
    (pf : PyVal → Option ℚ) (ed : Editor) (score : ℚ) (critique : PyVal)
    (hw : waitForActive st0 polls = some "ACTIVE")
    (hp : parseVerdict loads pf text = Except.ok (score, critique)) :
    (score ≥ mkRat 3 4 →
      jobEditorState (process_video_assessment
        { lookupAssessment := some a, downloadResult := Except.ok (),
          uploadResult := Except.ok st0, pollStates := polls,
          inferenceResult := Except.ok text, loads := loads, pyFloat := pf,
          lookupEditor := some ed } aid)
        = some { ed with badge_level :=
            if score > mkRat 23 25 then 3 else if score > mkRat 41 50 then 2 else 1 }) ∧
    (score < mkRat 3 4 →
      jobEditorState (process_video_assessment
        { lookupAssessment := some a, downloadResult := Except.ok (),
          uploadResult := Except.ok st0, pollStates := polls,
          inferenceResult := Except.ok text, loads := loads, pyFloat := pf,
          lookupEditor := some ed } aid)
        = some ed) := by
  unfold process_video_assessment
  dsimp only
  rw [hw, hp]
  dsimp only
  rw [if_neg (by simp)]
  constructor
  · intro hs
    rw [if_pos hs]
    rfl
  · intro hs
    rw [if_neg (not_le.mpr hs)]
    rfl

/-- Claim C5 witness: score 0.85 at approval sets the editor's badge level
to 2. -/
theorem c5_badge_bands_witness :
    waitForActive "PROCESSING" ["ACTIVE"] = some "ACTIVE" ∧
    parseVerdict loads085 samplePyFloat [lbraceChar, rbraceChar] =
      Except.ok (mkRat 17 20, PyVal.str "No critique provided.") ∧
    jobEditorState (process_video_assessment envScore085 "a1") =
      some { id := "e1", badge_level := 2 } :=
  ⟨rfl, rfl,
    ((c5_badge_bands "a1" aSample "PROCESSING" ["ACTIVE"] [lbraceChar, rbraceChar]
      loads085 samplePyFloat edSample (mkRat 17 20)
      (PyVal.str "No critique provided.") rfl rfl).1 (by decide)).trans rfl⟩

/-- Claim C9: when the verdict is approving but no editor row matches
`editor_id`, the execution still completes normally — status `approved`,
editor row untouched (none found, no badge written), nothing caught. -/
theorem c9_missing_editor_approval (aid : String) (a : SkillAssessment) (st0 : String)
    (polls : List String) (text : List Char) (loads : List Char → Option PyDict)
    (pf : PyVal → Option ℚ) (score : ℚ) (critique : PyVal)
    (hw : waitForActive st0 polls = some "ACTIVE")
    (hp : parseVerdict loads pf text = Except.ok (score, critique))
    (hs : score ≥ mkRat 3 4) :
    process_video_assessment
      { lookupAssessment := some a, downloadResult := Except.ok (),
        uploadResult := Except.ok st0, pollStates := polls,
        inferenceResult := Except.ok text, loads := loads, pyFloat := pf,
        lookupEditor := none } aid
    = some { db := { assessment := some { a with
                       status := AssessmentStatus.approved,
                       ai_score := score,
                       human_reviewer_notes := critique },
                     editor := none },
             eff := succEff false,
             ret := some { assessment_id := aid, status := "approved", score := score } } := by
  unfold process_video_assessment
  dsimp only
  rw [hw, hp]
  dsimp only
  rw [if_neg (by simp), if_pos hs]
  rfl

/-- Claim C9 witness: the statement instantiated at the concrete
editor-less approving execution with score 0.75. -/
theorem c9_missing_editor_approval_witness :
    waitForActive "ACTIVE" [] = some "ACTIVE" ∧
    parseVerdict loads075 samplePyFloat [lbraceChar, rbraceChar] =
      Except.ok (mkRat 3 4, PyVal.str "No critique provided.") ∧
    mkRat 3 4 ≥ mkRat 3 4 ∧
    process_video_assessment envScore075NoEd "a1"
      = some { db := { assessment := some { aSample with
                         status := AssessmentStatus.approved,
                         ai_score := mkRat 3 4,
                         human_reviewer_notes := PyVal.str "No critique provided." },
                       editor := none },
               eff := succEff false,
               ret := some { assessment_id := "a1", status := "approved",
                             score := mkRat 3 4 } } :=
  ⟨rfl, rfl, by decide,
    c9_missing_editor_approval "a1" aSample "ACTIVE" [] [lbraceChar, rbraceChar]
      loads075 samplePyFloat (mkRat 3 4) (PyVal.str "No critique provided.")
      rfl rfl (by decide)⟩

/-- Claim C6 (amended): for every response text whose trimmed form does not
itself begin with the seven-character fence marker, if it parses
successfully unwrapped then wrapping it in a markdown JSON code fence
parses to the identical (score, critique) verdict. -/
theorem c6_fence_equiv_amended (loads : List Char → Option PyDict)
    (pf : PyVal → Option ℚ) (x : List Char) (v : ℚ × PyVal)
    (hfence : startsWithL fenceTag (pyStrip x) = false)
    (hok : parseVerdict loads pf x = Except.ok v) :
    parseVerdict loads pf (wrapJsonFence x) = Except.ok v := by
  unfold parseVerdict at hok ⊢
  rw [fenceStripped_wrapJsonFence]
  rw [fenceStripped_of_not_fence x hfence] at hok
  exact hok

/-- Claim C6 counterexample: the already-fenced text parses successfully
when unwrapped, but wrapping that same text in a markdown JSON fence makes
parsing fail, because the fence is stripped at most once; so the claim is
false without restricting to non-fenced inputs. -/
theorem c6_fence_equiv_counterexample :
    parseVerdict sampleLoadsEmpty samplePyFloat (wrapJsonFence textEmptyObj) =
      Except.ok (0, PyVal.str "No critique provided.") ∧
    parseVerdict sampleLoadsEmpty samplePyFloat (wrapJsonFence (wrapJsonFence textEmptyObj)) =
      Except.error "AI response is not in the expected JSON format." :=
  ⟨rfl, rfl⟩

/-- Claim C6 witness: the amended statement instantiated at the two-character
JSON object text, whose fenced and unfenced parses agree. -/
theorem c6_fence_equiv_witness :
    startsWithL fenceTag (pyStrip textEmptyObj) = false ∧
    parseVerdict sampleLoadsEmpty samplePyFloat textEmptyObj =
      Except.ok (0, PyVal.str "No critique provided.") ∧
    parseVerdict sampleLoadsEmpty samplePyFloat (wrapJsonFence textEmptyObj) =
      Except.ok (0, PyVal.str "No critique provided.") :=
  ⟨rfl, rfl, c6_fence_equiv_amended sampleLoadsEmpty samplePyFloat textEmptyObj
    (0, PyVal.str "No critique provided.") rfl rfl⟩

/-- Claim C7: for every response whose text, after trimming and fence
stripping, does not begin with an opening brace, parsing fails with the
`ValueError` message of line 105, whatever the external decoder would do. -/
theorem c7_non_json_error (loads : List Char → Option PyDict)
    (pf : PyVal → Option ℚ) (text : List Char)
    (hb : startsWithL [lbraceChar] (fenceStripped text) = false) :
    parseVerdict loads pf text =
      Except.error "AI response is not in the expected JSON format." := by
  unfold parseVerdict parseAfterFence
  rw [hb]
  simp

/-- Claim C7 witness: the refusal text fails with the format error. -/
theorem c7_non_json_error_witness :
    startsWithL [lbraceChar] (fenceStripped textRefusal) = false ∧
    parseVerdict (fun _ => none) samplePyFloat textRefusal =
      Except.error "AI response is not in the expected JSON format." :=
  ⟨rfl, c7_non_json_error (fun _ => none) samplePyFloat textRefusal rfl⟩

/-- Claim C10: a response wrapped in a plain (untagged) triple-backquote
fence never triggers fence stripping — the marker check requires the exact
seven characters of the tagged fence — so parsing fails with the format
error even when the fenced content is a valid JSON object text. -/
theorem c10_plain_fence_rejected (loads : List Char → Option PyDict)
    (pf : PyVal → Option ℚ) (x : List Char) :
    parseVerdict loads pf (plainFenceWrap x) =
      Except.error "AI response is not in the expected JSON format." := by
  have hstrip : pyStrip (plainFenceWrap x) = plainFenceWrap x := strip_plainFenceWrap x
  have hf : startsWithL fenceTag (plainFenceWrap x) = false := rfl
  have hl : startsWithL [lbraceChar] (plainFenceWrap x) = false := rfl
  unfold parseVerdict fenceStripped parseAfterFence
  simp only [hstrip, hf, hl, Bool.false_eq_true, if_false]
